import Mathlib

/-!
Shallow embedding of `src/main.cpp` of the tvim repository: a minimal
Turbo Vision application consisting of a menu bar factory, a status line
factory, an event handler that delegates to the framework, and a `main`
that runs the event loop and returns 0.
-/

namespace TVim

/-! ### Framework constants (from the Turbo Vision headers) -/

/-- Turbo Vision standard command `cmQuit` (views.h). -/
def cmQuit : Nat := 1

/-- Turbo Vision standard command `cmMenu` (views.h). -/
def cmMenu : Nat := 3

/-- Turbo Vision key code for Alt-X (tkeys.h). -/
def kbAltX : Nat := 0x2D00

/-- Turbo Vision key code for Alt-F (tkeys.h). -/
def kbAltF : Nat := 0x2100

/-- Turbo Vision key code for F10 (tkeys.h). -/
def kbF10 : Nat := 0x4400

/-- Turbo Vision event class for command events (system.h). -/
def evCommand : Nat := 0x0100

/-- Turbo Vision help context constant `hcNoContext` (help contexts are
16-bit unsigned values). -/
def hcNoContext : Nat := 0

/-! ### Geometry: TPoint and TRect -/

/-- A point, as Turbo Vision's `TPoint` (two machine ints). -/
structure TPoint where
  x : Int
  y : Int
deriving DecidableEq, Repr

/-- A rectangle, as Turbo Vision's `TRect`: corner `a` (top-left) and
corner `b` (bottom-right). -/
structure TRect where
  a : TPoint
  b : TPoint
deriving DecidableEq, Repr

/-! ### Widget data -/

/-- A menu item as constructed by `new TMenuItem(name, command, keyCode,
helpCtx, param)`. The `name` and `param` strings keep the source's tilde
markup; `param` is the displayed shortcut text only. -/
structure TMenuItem where
  name : String
  command : Nat
  keyCode : Nat
  helpCtx : Nat
  param : Option String
deriving DecidableEq, Repr

/-- A top-level submenu as constructed by `new TSubMenu(name, keyCode)`
followed by `+` chaining of its items. -/
structure TSubMenu where
  name : String
  keyCode : Nat
  items : List TMenuItem
deriving DecidableEq, Repr

/-- The menu bar: its bounds rectangle and the chain of top-level menus. -/
structure TMenuBar where
  bounds : TRect
  menus : List TSubMenu
deriving DecidableEq, Repr

/-- A status item as constructed by `new TStatusItem(text, keyCode,
command)`. A null text pointer (hidden item) is `none`. -/
structure TStatusItem where
  text : Option String
  keyCode : Nat
  command : Nat
deriving DecidableEq, Repr

/-- A status definition as constructed by `new TStatusDef(min, max)`
followed by `+` chaining of its items: it is active for help contexts in
[min, max]. -/
structure TStatusDef where
  min : Nat
  max : Nat
  items : List TStatusItem
deriving DecidableEq, Repr

/-- The status line: its bounds rectangle and the chain of status
definitions. -/
structure TStatusLine where
  bounds : TRect
  defs : List TStatusDef
deriving DecidableEq, Repr

/-! ### The application's factory functions (from `src/main.cpp`) -/

/-- `TVimApp::initMenuBar` (main.cpp lines 42-49): shrink `r` to the top
row (`r.b.y = r.a.y + 1`) and build a menu bar with one submenu
`"~F~ile"` bound to `kbAltF`, holding the single item
`TMenuItem("E~x~it", cmQuit, cmQuit, hcNoContext, "Alt-X")`. -/
def initMenuBar (r : TRect) : TMenuBar :=
  let r' : TRect := { r with b := { r.b with y := r.a.y + 1 } }
  { bounds := r'
    menus := [ { name := "~F~ile"
                 keyCode := kbAltF
                 items := [ { name := "E~x~it"
                              command := cmQuit
                              keyCode := cmQuit
                              helpCtx := hcNoContext
                              param := some "Alt-X" } ] } ] }

/-- `TVimApp::initStatusLine` (main.cpp lines 51-57): shrink `r` to the
bottom row (`r.a.y = r.b.y - 1`) and build a status line with one
`TStatusDef(0, 0xFFFF)` holding `TStatusItem("~Alt-X~ Exit", kbAltX,
cmQuit)` and the hidden `TStatusItem(0, kbF10, cmMenu)`. -/
def initStatusLine (r : TRect) : TStatusLine :=
  let r' : TRect := { r with a := { r.a with y := r.b.y - 1 } }
  { bounds := r'
    defs := [ { min := 0
                max := 0xFFFF
                items := [ { text := some "~Alt-X~ Exit"
                             keyCode := kbAltX
                             command := cmQuit },
                           { text := none
                             keyCode := kbF10
                             command := cmMenu } ] } ] }

/-! ### Event handling (from `src/main.cpp`) -/

/-- A Turbo Vision event: its class tag `what` and, for command events,
the command code carried in `message.command`. -/
structure TEvent where
  what : Nat
  command : Nat
deriving DecidableEq, Repr

/-- `TVimApp::handleEvent` (main.cpp lines 32-40), parametrised by the
framework base handler `TApplication::handleEvent` (abstract here, since
it is framework code): first call the base handler, which may change the
application state and the event; then, if the (possibly rewritten) event
is a command event, switch on its command code — the switch has only a
`default: break;` arm, so every case does nothing. -/
def handleEvent {State : Type} (base : State → TEvent → State × TEvent)
    (s : State) (e : TEvent) : State × TEvent :=
  let r := base s e
  if r.2.what = evCommand then
    r
  else
    r

/-! ### Startup and `main` (from `src/main.cpp`) -/

/-- The `TProgInit` initializer record: the three widget factory
functions that `TProgInit` receives and later calls to construct the
status line, the menu bar and the desktop. -/
structure TProgInit (SL MB DT : Type) where
  createStatusLine : TRect → SL
  createMenuBar : TRect → MB
  createDeskTop : TRect → DT

/-- The `TVimApp` constructor (main.cpp lines 28-30): it has an empty
body and only delegates to `TProgInit`, passing exactly
`&TVimApp::initStatusLine`, `&TVimApp::initMenuBar` and the framework's
`&TVimApp::initDeskTop` (abstract here, since it is framework code). -/
def TVimApp.construct {DT : Type} (initDeskTop : TRect → DT) :
    TProgInit TStatusLine TMenuBar DT :=
  { createStatusLine := initStatusLine
    createMenuBar := initMenuBar
    createDeskTop := initDeskTop }

/-- `main` (main.cpp lines 59-63): construct the application, run the
blocking event loop, and return 0. The value produced by `vim_app.run()`
is abstract (framework code) and is discarded; `main` has a single
return statement, `return 0;`. -/
def main {α : Type} (_runResult : α) : Int :=
  0

/-! ### The world of external inputs

`main` takes no parameters and the application code never touches the
command line, the environment or the file system; the only external
datum feeding the factories is the screen rectangle the framework hands
them. We make those untouched inputs explicit to state independence. -/

/-- The external inputs a process run could differ in: command-line
arguments, environment variables and file-system contents. -/
structure World where
  args : List String
  env : List (String × String)
  files : List (String × String)
deriving DecidableEq, Repr

/-- The application-level observables of one run: the widgets built at
startup (from the screen rectangle the framework supplies) and the exit
code of `main`. The `World` argument is the run's external inputs; the
application code contains no reference to any of them. -/
def appRun (screen : TRect) (_w : World) : TMenuBar × TStatusLine × Int :=
  (initMenuBar screen, initStatusLine screen, main ())

/-! ### Helper functions on the tilde markup -/

/-- The text a tilde-marked label displays: the label with the tilde
markers removed (Turbo Vision shows `"~F~ile"` as `File` with `F`
highlighted). -/
def displayText (s : String) : String :=
  ⟨s.data.filter (fun c => c ≠ '~')⟩

/-- The highlighted hotkey letter of a tilde-marked label: the character
right after the first tilde. -/
def hotkeyOf (s : String) : Option Char :=
  match s.data.dropWhile (fun c => c ≠ '~') with
  | _ :: c :: _ => some c
  | _ => none

/-- A fixed 80x25 screen rectangle, used as a concrete input. -/
def screen80x25 : TRect :=
  { a := { x := 0, y := 0 }, b := { x := 80, y := 25 } }

/-- The single status definition that `initStatusLine` installs, named
for use in statements: `TStatusDef(0, 0xFFFF)` with the visible Alt-X
Exit item and the hidden F10-to-menu item. -/
def tvimStatusDef : TStatusDef :=
  { min := 0
    max := 0xFFFF
    items := [ { text := some "~Alt-X~ Exit", keyCode := kbAltX, command := cmQuit },
               { text := none, keyCode := kbF10, command := cmMenu } ] }

/-- The single menu item that `initMenuBar` installs, named for use in
statements: `TMenuItem("E~x~it", cmQuit, cmQuit, hcNoContext, "Alt-X")`. -/
def tvimExitItem : TMenuItem :=
  { name := "E~x~it"
    command := cmQuit
    keyCode := cmQuit
    helpCtx := hcNoContext
    param := some "Alt-X" }

/-! ### Theorems settling the claims -/

/-- Claim C1, as stated, is false on the code: at the concrete 80x25
screen the menu bar's single item has bound key code `cmQuit` (the value
1) in the key-code slot of the `TMenuItem` constructor, and `cmQuit` is
not the Alt-X key code `kbAltX` (0x2D00). -/
theorem C1_counterexample :
    (initMenuBar screen80x25).menus.map (fun sub => sub.items.map (fun it => it.keyCode))
        = [[cmQuit]]
      ∧ cmQuit ≠ kbAltX := by
  exact ⟨rfl, by decide⟩

/-- Claim C1 (amended): the menu bar built by `initMenuBar` contains
exactly one item, whose display label is "Exit", whose bound command is
the quit command, and whose bound key code is `cmQuit` (value 1), not
the Alt-X key code; "Alt-X" appears only as the item's displayed
shortcut text, and the quit command is reachable via Alt-X through the
status line's binding of `kbAltX` to `cmQuit`. -/
theorem C1_theorem (r : TRect) :
    (initMenuBar r).menus.map (fun sub => sub.items) = [[tvimExitItem]]
      ∧ displayText tvimExitItem.name = "Exit"
      ∧ tvimExitItem.command = cmQuit
      ∧ tvimExitItem.keyCode = cmQuit
      ∧ tvimExitItem.keyCode ≠ kbAltX
      ∧ tvimExitItem.param = some "Alt-X"
      ∧ (initStatusLine r).defs.map (fun d => d.items.map (fun it => (it.keyCode, it.command)))
          = [[(kbAltX, cmQuit), (kbF10, cmMenu)]] := by
  refine ⟨rfl, rfl, rfl, rfl, by decide, rfl, rfl⟩

/-- Claim C2: for every application-state type, every base handler,
every state and every event, `TVimApp::handleEvent` produces exactly the
state-event pair of the base handler alone: the command switch is a
no-op in every case. -/
theorem C2_theorem {State : Type} (base : State → TEvent → State × TEvent)
    (s : State) (e : TEvent) :
    handleEvent base s e = base s e := by
  unfold handleEvent
  exact ite_self (base s e)

/-- Claim C3: the status line built by `initStatusLine` contains exactly
two items — the visible "~Alt-X~ Exit" item binding `kbAltX` to
`cmQuit`, and a hidden item (no text) binding `kbF10` to `cmMenu`. -/
theorem C3_theorem (r : TRect) :
    (initStatusLine r).defs.map (fun d => d.items)
      = [[ { text := some "~Alt-X~ Exit", keyCode := kbAltX, command := cmQuit },
           { text := none, keyCode := kbF10, command := cmMenu } ]] :=
  rfl

/-- Claim C4: the menu bar built by `initMenuBar` contains exactly one
top-level menu; its label displays as "File" and its highlighted hotkey
letter is `F`. -/
theorem C4_theorem (r : TRect) :
    (initMenuBar r).menus.map (fun sub => sub.name) = ["~F~ile"]
      ∧ displayText "~F~ile" = "File"
      ∧ hotkeyOf "~F~ile" = some 'F' :=
  ⟨rfl, rfl, rfl⟩

/-- Claim C5: whatever value the run loop terminates with, `main`
returns exit code 0; there is no path returning another value. -/
theorem C5_theorem {α : Type} (runResult : α) : main runResult = 0 :=
  rfl

/-- Claim C6: the `TVimApp` constructor only delegates to `TProgInit`
with exactly the three factories `initStatusLine`, `initMenuBar` and the
framework's `initDeskTop`. -/
theorem C6_theorem {DT : Type} (initDeskTop : TRect → DT) :
    (TVimApp.construct initDeskTop).createStatusLine = initStatusLine
      ∧ (TVimApp.construct initDeskTop).createMenuBar = initMenuBar
      ∧ (TVimApp.construct initDeskTop).createDeskTop = initDeskTop :=
  ⟨rfl, rfl, rfl⟩

/-- Claim C7: two runs on the same screen rectangle that differ only in
command-line arguments, environment variables or file-system contents
have identical application-level observables (widgets built and exit
code). -/
theorem C7_theorem (screen : TRect) (w1 w2 : World) :
    appRun screen w1 = appRun screen w2 :=
  rfl

/-- Claim C8: `initMenuBar` changes only `b.y` of its rectangle (to
`a.y + 1`) and `initStatusLine` changes only `a.y` (to `b.y - 1`); all
other coordinates pass through unchanged. -/
theorem C8_theorem (r : TRect) :
    (initMenuBar r).bounds
        = { a := r.a, b := { x := r.b.x, y := r.a.y + 1 } }
      ∧ (initStatusLine r).bounds
        = { a := { x := r.a.x, y := r.b.y - 1 }, b := r.b } :=
  ⟨rfl, rfl⟩

/-- Claim C9: the status line holds a single `TStatusDef`, and for every
help context value up to 0xFFFF that definition's range [min, max]
covers it, so the same two items are active for every possible help
context. -/
theorem C9_theorem (r : TRect) (ctx : Nat) (h : ctx ≤ 0xFFFF) :
    (initStatusLine r).defs = [tvimStatusDef]
      ∧ tvimStatusDef.min ≤ ctx
      ∧ ctx ≤ tvimStatusDef.max :=
  ⟨rfl, Nat.zero_le _, h⟩

/-- Witness for C9 at the 80x25 screen and help context 42. -/
theorem C9_witness :
    42 ≤ 0xFFFF
      ∧ ((initStatusLine screen80x25).defs = [tvimStatusDef]
          ∧ tvimStatusDef.min ≤ 42
          ∧ 42 ≤ tvimStatusDef.max) :=
  ⟨by decide, C9_theorem screen80x25 42 (by decide)⟩

/-- Claim C10: the single "File" top-level menu is bound to the Alt-F
key code `kbAltF`, in addition to the F10 menu-activation binding of the
status line. -/
theorem C10_theorem (r : TRect) :
    (initMenuBar r).menus.map (fun sub => (sub.name, sub.keyCode))
      = [("~F~ile", kbAltF)] :=
  rfl

end TVim
